import Mathlib

/-!
Shallow embedding of the asset configuration and loading subsystem of
`dataengine` (`src/dataengine/assets.py`) together with the parts of the
`Database` interface the development reasons about.

Modelling conventions:
* YAML-loadable Python values are the inductive `Value` (strings, ints,
  booleans, `None`, lists, string-keyed dicts).  Floats are not needed by any
  statement below and are omitted.
* External effects are parameters: the process environment is a function
  `String → Option String` (`os.getenv`), the filesystem is
  `String → Option String` (path to file text, `none` when `open` fails), the
  YAML parser is `String → Option Config` (`yaml.safe_load`, `none` when the
  text is unparsable), and SQL execution is `String → Bool` (whether
  `cursor.execute` plus `commit` of the given statement succeeds).
* Python dicts are association lists with unique keys; `dictGet` is key
  lookup and `dictSet` is item assignment (replace in place or append), which
  also reproduces insertion-order iteration.
* Fallible Python code (marshmallow schema loading, config-file reading)
  returns `Except`.
-/

namespace Dataengine

/-- YAML-loadable Python values as they occur in asset configuration files. -/
inductive Value where
  | str (s : String)
  | int (n : Int)
  | bool (b : Bool)
  | null
  | list (xs : List Value)
  | dict (kvs : List (String × Value))

/-- One asset's attribute mapping (a Python dict of config parameters). -/
abbrev Entry := List (String × Value)

/-- A merged configuration: asset name to attribute mapping. -/
abbrev Config := List (String × Entry)

mutual

/-- Python `repr` of a YAML-loadable value.  String escaping is simplified to
plain single quotes; every statement below depends only on scalar `repr`s and
on the fact that containers render with a leading `[` or `\x7b` character. -/
def pyRepr : Value → String
  | .str s => "\x27" ++ s ++ "\x27"
  | .int n => toString n
  | .bool b => if b then "True" else "False"
  | .null => "None"
  | .list xs => "[" ++ String.intercalate ", " (pyReprList xs) ++ "]"
  | .dict kvs => "\x7b" ++ String.intercalate ", " (pyReprPairs kvs) ++ "\x7d"

/-- `repr` of the elements of a Python list. -/
def pyReprList : List Value → List String
  | [] => []
  | v :: vs => pyRepr v :: pyReprList vs

/-- `repr` of the items of a string-keyed Python dict. -/
def pyReprPairs : List (String × Value) → List String
  | [] => []
  | (k, v) :: kvs => ("\x27" ++ k ++ "\x27: " ++ pyRepr v) :: pyReprPairs kvs

end

/-- Python `str(value)`: the string itself for strings, `repr` otherwise. -/
def pyStr : Value → String
  | .str s => s
  | .int n => pyRepr (.int n)
  | .bool b => pyRepr (.bool b)
  | .null => pyRepr .null
  | .list xs => pyRepr (.list xs)
  | .dict kvs => pyRepr (.dict kvs)

/-- `ENVIRONMENT_VAR_REGEX.fullmatch` for the compiled pattern of a doubly
braced name (`assets.py` line 9): the full match succeeds exactly when the
whole string is two opening braces, a nonempty newline-free body, and two
closing braces; the captured group is the body.  (With `fullmatch`, the lazy
group is forced to cover everything strictly between the outer brace pairs.) -/
def envVarFullmatch (s : String) : Option String :=
  let cs := s.toList
  let n := cs.length
  let body := (cs.drop 2).take (n - 4)
  if 5 ≤ n ∧ cs.take 2 = [Char.ofNat 123, Char.ofNat 123] ∧
      cs.drop (n - 2) = [Char.ofNat 125, Char.ofNat 125] ∧
      body.all (fun c => c != Char.ofNat 10) = true then
    some (String.mk body)
  else
    none

/-- `re.fullmatch(r"[0-9]+", s)` viewed as a Boolean: one or more ASCII
digits and nothing else. -/
def isAllDigits (s : String) : Bool :=
  !s.toList.isEmpty && s.toList.all Char.isDigit

/-- Python `int(value)` as used in `load_assets`: it is only reached under the
`isAllDigits (pyStr value)` guard, where the value is either a nonnegative
integer already or a string of decimal digits. -/
def pyInt : Value → Int
  | .int n => n
  | .str s => Int.ofNat (s.toNat?.getD 0)
  | _ => 0

/-- Environment-variable resolution step of the `load_assets` loop
(`assets.py` lines 364-366): on a full-string placeholder match the value is
replaced by `os.getenv` of the captured name (`None` when unset). -/
def envResolve (env : String → Option String) (v : Value) : Value :=
  match envVarFullmatch (pyStr v) with
  | some name =>
    match env name with
    | some s => .str s
    | none => .null
  | none => v

/-- Port coercion step of the `load_assets` loop (`assets.py` lines 367-372):
for the key `"port"`, a purely-decimal string form is cast with `int`, and
anything else is coerced to `0`. -/
def coercePort (key : String) (v : Value) : Value :=
  if key = "port" then
    if isAllDigits (pyStr v) then .int (pyInt v) else .int 0
  else v

/-- Final step of the `load_assets` loop (`assets.py` lines 373-375): a value
that `is None` is cast to an empty string. -/
def noneToEmptyStr : Value → Value
  | .null => .str ""
  | v => v

/-- Python `==` between a configuration value and a string literal, as in
`parameters["asset_type"] == "database"`: only a `str` compares equal. -/
def Value.eqStr : Value → String → Bool
  | .str s, t => s == t
  | _, _ => false

/-- The complete per-value body of the `load_assets` configuration loop for a
key other than `"asset_type"` (`assets.py` lines 364-377). -/
def resolveParam (env : String → Option String) (key : String) (v : Value) : Value :=
  noneToEmptyStr (coercePort key (envResolve env v))

/-- Python dict lookup: the value at a key, or `none` when the key is absent
(keys are unique in every dict this development builds). -/
def dictGet {α : Type} : List (String × α) → String → Option α
  | [], _ => none
  | (k', v) :: rest, k => if k' = k then some v else dictGet rest k

/-- Python dict item assignment `d[k] = v`: replace the value at an existing
key in place (keeping its position in insertion order) or append a new item. -/
def dictSet {α : Type} : List (String × α) → String → α → List (String × α)
  | [], k, v => [(k, v)]
  | (k', v') :: rest, k, v =>
    if k' = k then (k, v) :: rest else (k', v') :: dictSet rest k v

/-- Python `d.update(new)`: assign every item of `new` into `d` in order. -/
def dictUpdate {α : Type} (d new : List (String × α)) : List (String × α) :=
  new.foldl (fun acc kv => dictSet acc kv.1 kv.2) d

/-- Construction of the per-asset `config` dict in `load_assets`
(`assets.py` lines 360-377): start from the asset name, skip the reserved
`asset_type` key, and run every other value through the resolution loop. -/
def buildConfig (env : String → Option String) (assetName : String)
    (params : Entry) : Entry :=
  params.foldl
    (fun config kv =>
      if kv.1 = "asset_type" then config
      else dictSet config kv.1 (resolveParam env kv.1 kv.2))
    [("asset_name", Value.str assetName)]

/-- `BaseDataset` objects (`assets.py` lines 73-104).  The Python back
reference `self.bucket` is modelled by the owning bucket's `bucket_name`
(`none` while the dataset is not in any bucket). -/
structure BaseDataset where
  asset_name : String
  file_path_list : List String
  file_format : String
  header : Bool
  schema : Option (List (String × String))
  bucket_asset_name : Option String
  location : String
  bucket : Option String
deriving DecidableEq

/-- Python truthiness of the optional `bucket_asset_name` string, as tested by
`if self.bucket_asset_name:` — `None` and the empty string are falsy. -/
def strTruthy : Option String → Bool
  | none => false
  | some s => s != ""

/-- `BaseDataset.__init__` (`assets.py` lines 77-98): store the fields, set
`location` from the truthiness of `bucket_asset_name`, and start outside any
bucket. -/
def mkBaseDataset (asset_name : String) (file_path_list : List String)
    (file_format : String) (bucket_asset_name : Option String)
    (header : Bool) (schema : Option (List (String × String))) : BaseDataset :=
  { asset_name := asset_name
    file_path_list := file_path_list
    file_format := file_format
    header := header
    schema := schema
    bucket_asset_name := bucket_asset_name
    location := if strTruthy bucket_asset_name then "s3" else "local"
    bucket := none }

/-- `BaseDataset.get_bucket_name` (`assets.py` lines 103-104): the owning
bucket's `bucket_name`, or `"Unassigned"` when no bucket is set. -/
def BaseDataset.get_bucket_name (d : BaseDataset) : String :=
  match d.bucket with
  | some bn => bn
  | none => "Unassigned"

/-- `Bucket` objects (`assets.py` lines 107-132); `__init__` always starts
with an empty `datasets` list. -/
structure Bucket where
  asset_name : String
  bucket_name : String
  access_key : Option String
  secret_key : Option String
  datasets : List BaseDataset
deriving DecidableEq

/-- `Database` objects (`assets.py` lines 160-181). -/
structure Database where
  asset_name : String
  database_type : String
  host : String
  port : Int
  user : String
  password : String
deriving DecidableEq

/-- `valid_args` of `BaseDatasetSchema.validate_file_format`. -/
def validFileFormats : List String := ["csv", "parquet", "delta", "avro", "json"]

/-- `valid_args` of `DatabaseSchema.validate_database_type`. -/
def validDatabaseTypes : List String := ["postgresql", "mysql"]

/-- Exceptions a schema `load` call can surface: a marshmallow
`ValidationError` (missing/mistyped fields and validator rejections, carrying
the message), an exception escaping from `str.format` while an enum validator
builds its message (CPython raises `ValueError`, `IndexError` or `KeyError`
there depending on the malformed replacement field; the class distinction is
collapsed into `formatError` since the code lets all of them propagate
uncaught), and the `TypeError` from a `post_load` constructor call. -/
inductive PyError where
  | validationError (msg : String)
  | formatError
  | typeError (msg : String)
deriving DecidableEq

/-- Scanner of CPython `str.format` with exactly one positional argument, as
called by the two enum validators.  Their f-string interpolates the offending
value into the message *before* `.format` runs (the f-string and the plain
literal are adjacent, so they concatenate first), hence the scan below
processes the value's own braces: doubled braces are escapes, the first empty
field substitutes the argument, and any other replacement field or stray
brace makes the call raise (`none`).  On this template family — the template
always ends with one auto-numbered empty field and there is a single
argument — CPython raises on every such input (a manual, named, converted or
format-specced field either fails itself or forces the mandatory trailing
field into an `IndexError` or numbering-switch `ValueError`), so collapsing
those outcomes into `none` is outcome-faithful. -/
def pyFormatGo (arg : List Char) : List Char → Nat → Option (List Char)
  | [], _ => some []
  | c :: rest, autoCount =>
    if c = Char.ofNat 125 then
      match rest with
      | c2 :: rest2 =>
        if c2 = Char.ofNat 125 then
          (pyFormatGo arg rest2 autoCount).map (fun t => Char.ofNat 125 :: t)
        else none
      | [] => none
    else if c = Char.ofNat 123 then
      match rest with
      | c2 :: rest2 =>
        if c2 = Char.ofNat 123 then
          (pyFormatGo arg rest2 autoCount).map (fun t => Char.ofNat 123 :: t)
        else if c2 = Char.ofNat 125 then
          if autoCount = 0 then
            (pyFormatGo arg rest2 1).map (fun t => arg ++ t)
          else none
        else none
      | [] => none
    else (pyFormatGo arg rest autoCount).map (fun t => c :: t)

/-- `template.format(arg)`: `some` formatted string, `none` when the call
raises. -/
def pyFormat (template arg : String) : Option String :=
  (pyFormatGo arg.toList template.toList 0).map String.mk

/-- `BaseDatasetSchema.validate_file_format` (`assets.py` lines 29-39).  The
source builds its message as an f-string adjacent to a plain literal, so the
trailing `.format(", ".join(valid_args))` runs over the whole concatenated
message with the offending value already interpolated: the value's own braces
are reprocessed by `str.format`, which can itself raise instead of producing
a `ValidationError`. -/
def validate_file_format (file_format : String) : Except PyError Unit :=
  if file_format ∉ validFileFormats then
    match pyFormat
        ("Invalid file_format \x27" ++ file_format ++
          "\x27 provided, please choose among the list: [\x7b\x7d]")
        (String.intercalate ", " validFileFormats) with
    | some msg => .error (.validationError msg)
    | none => .error .formatError
  else .ok ()

/-- `DatabaseSchema.validate_database_type` (`assets.py` lines 145-153), with
the same adjacent-literal `.format` message construction as
`validate_file_format`. -/
def validate_database_type (database_type : String) : Except PyError Unit :=
  if database_type ∉ validDatabaseTypes then
    match pyFormat
        ("Invalid database_type \x27" ++ database_type ++
          "\x27 provided, please choose among the list: [\x7b\x7d]")
        (String.intercalate ", " validDatabaseTypes) with
    | some msg => .error (.validationError msg)
    | none => .error .formatError
  else .ok ()

/-- Marshmallow deserialization of a required `fields.Str`. -/
def requiredStr (config : Entry) (field : String) : Except PyError String :=
  match dictGet config field with
  | some (Value.str s) => .ok s
  | some _ => .error (.validationError (field ++ ": Not a valid string."))
  | none => .error (.validationError (field ++ ": Missing data for required field."))

/-- Marshmallow deserialization of an optional `fields.Str` with no default. -/
def optionalStr (config : Entry) (field : String) : Except PyError (Option String) :=
  match dictGet config field with
  | some (Value.str s) => .ok (some s)
  | some _ => .error (.validationError (field ++ ": Not a valid string."))
  | none => .ok none

/-- Marshmallow deserialization of a `fields.Str` with a `load_default`. -/
def strWithDefault (config : Entry) (field dflt : String) : Except PyError String :=
  match dictGet config field with
  | some (Value.str s) => .ok s
  | some _ => .error (.validationError (field ++ ": Not a valid string."))
  | none => .ok dflt

/-- Marshmallow deserialization of a `fields.Bool` with a `load_default`.
(Marshmallow's extra string/number spellings of booleans are not modelled;
YAML booleans load as Python `bool`.) -/
def boolWithDefault (config : Entry) (field : String) (dflt : Bool) : Except PyError Bool :=
  match dictGet config field with
  | some (Value.bool b) => .ok b
  | some _ => .error (.validationError (field ++ ": Not a valid boolean."))
  | none => .ok dflt

/-- Marshmallow deserialization of a required `fields.Integer`: accepts an
integer or an integer-formatted string. -/
def requiredInt (config : Entry) (field : String) : Except PyError Int :=
  match dictGet config field with
  | some (Value.int n) => .ok n
  | some (Value.str s) =>
    match s.toInt? with
    | some n => .ok n
    | none => .error (.validationError (field ++ ": Not a valid integer."))
  | some _ => .error (.validationError (field ++ ": Not a valid integer."))
  | none => .error (.validationError (field ++ ": Missing data for required field."))

/-- Elementwise deserialization of `fields.List(fields.Str())` items. -/
def asStrList : List Value → Except String (List String)
  | [] => .ok []
  | Value.str s :: rest => (asStrList rest).map (fun l => s :: l)
  | _ :: _ => .error "Not a valid string."

/-- Marshmallow deserialization of a required `fields.List(fields.Str())`. -/
def requiredStrList (config : Entry) (field : String) : Except PyError (List String) :=
  match dictGet config field with
  | some (Value.list xs) =>
    match asStrList xs with
    | .ok l => .ok l
    | .error e => .error (.validationError (field ++ ": " ++ e))
  | some _ => .error (.validationError (field ++ ": Not a valid list."))
  | none => .error (.validationError (field ++ ": Missing data for required field."))

/-- Elementwise deserialization of `fields.Dict(values=fields.Str())` items. -/
def asStrPairs : List (String × Value) → Except String (List (String × String))
  | [] => .ok []
  | (k, Value.str s) :: rest => (asStrPairs rest).map (fun l => (k, s) :: l)
  | _ :: _ => .error "Not a valid string."

/-- Marshmallow deserialization of the optional
`fields.Dict(keys=fields.Str(), values=fields.Str())` schema mapping. -/
def optionalStrPairs (config : Entry) (field : String) :
    Except PyError (Option (List (String × String))) :=
  match dictGet config field with
  | some (Value.dict kvs) =>
    match asStrPairs kvs with
    | .ok l => .ok (some l)
    | .error e => .error (.validationError (field ++ ": " ++ e))
  | some _ => .error (.validationError (field ++ ": Not a valid mapping."))
  | none => .ok none

/-- Marshmallow's rejection of fields absent from the schema declaration
(the default `unknown = RAISE` policy). -/
def checkUnknownFields (config : Entry) (declared : List String) : Except PyError Unit :=
  match config.find? (fun kv => !(declared.contains kv.1)) with
  | some kv => .error (.validationError (kv.1 ++ ": Unknown field."))
  | none => .ok ()

/-- `BaseDatasetSchema().load(config)` (`assets.py` lines 19-43): field
deserialization with defaults, the `file_format` validator, and the
`post_load` construction of a `BaseDataset`.  (Marshmallow aggregates errors
per field; this model reports the first one, which no statement below
depends on.) -/
def loadBaseDataset (config : Entry) : Except PyError BaseDataset := do
  (checkUnknownFields config
    ["asset_name", "file_path_list", "file_format", "bucket_asset_name",
     "header", "schema"] : Except PyError Unit)
  let an ← requiredStr config "asset_name"
  let fpl ← requiredStrList config "file_path_list"
  let ff ← strWithDefault config "file_format" "csv"
  validate_file_format ff
  let ban ← optionalStr config "bucket_asset_name"
  let hdr ← boolWithDefault config "header" true
  let sch ← optionalStrPairs config "schema"
  return mkBaseDataset an fpl ff ban hdr sch

/-- `BucketSchema().load(config)` (`assets.py` lines 46-57 and 111-122): the
`post_load` `Bucket(**data)` takes no `datasets` parameter, so a config with
a `datasets` key fails construction (a `TypeError` in the source); otherwise
the bucket starts with an empty dataset list. -/
def loadBucket (config : Entry) : Except PyError Bucket := do
  (checkUnknownFields config
    ["asset_name", "bucket_name", "access_key", "secret_key", "datasets"] :
    Except PyError Unit)
  let an ← requiredStr config "asset_name"
  let bn ← requiredStr config "bucket_name"
  let ak ← optionalStr config "access_key"
  let sk ← optionalStr config "secret_key"
  if (dictGet config "datasets").isSome then
    .error (.typeError "make_bucket: unexpected keyword argument \x27datasets\x27")
  else
    return { asset_name := an, bucket_name := bn, access_key := ak,
             secret_key := sk, datasets := [] }

/-- `DatabaseSchema().load(config)` (`assets.py` lines 135-157): required
fields, the `database_type` validator, and the `post_load` construction. -/
def loadDatabase (config : Entry) : Except PyError Database := do
  (checkUnknownFields config
    ["asset_name", "database_type", "host", "port", "user", "password"] :
    Except PyError Unit)
  let an ← requiredStr config "asset_name"
  let dt ← requiredStr config "database_type"
  validate_database_type dt
  let host ← requiredStr config "host"
  let port ← requiredInt config "port"
  let user ← requiredStr config "user"
  let pw ← requiredStr config "password"
  return { asset_name := an, database_type := dt, host := host, port := port,
           user := user, password := pw }

/-- The `asset_map` result structure of `load_assets`. -/
structure AssetMap where
  buckets : List (String × Bucket)
  base_datasets : List (String × BaseDataset)
  databases : List (String × Database)
deriving DecidableEq

/-- The initial empty `asset_map`. -/
def emptyAssetMap : AssetMap := ⟨[], [], []⟩

/-- The entry loop of `load_assets` (`assets.py` lines 349-389), processing
the remaining configuration entries into the accumulated asset map: a missing
`asset_type` defaults to `"base_dataset"`, the per-entry `config` dict is
built by `buildConfig`, the discriminator routes to one of the three schema
loads (whose `ValidationError`s propagate and abort the whole load), and an
unrecognized discriminator matches no branch of the `if`/`elif` chain. -/
def load_assets_go (env : String → Option String) (acc : AssetMap) :
    Config → Except PyError AssetMap
  | [] => .ok acc
  | (assetName, params) :: rest =>
    let assetType := (dictGet params "asset_type").getD (Value.str "base_dataset")
    let config := buildConfig env assetName params
    if assetType.eqStr "database" then
      match loadDatabase config with
      | .error e => .error e
      | .ok db =>
        load_assets_go env
          { acc with databases := dictSet acc.databases assetName db } rest
    else if assetType.eqStr "bucket" then
      match loadBucket config with
      | .error e => .error e
      | .ok b =>
        load_assets_go env
          { acc with buckets := dictSet acc.buckets assetName b } rest
    else if assetType.eqStr "base_dataset" then
      match loadBaseDataset config with
      | .error e => .error e
      | .ok ds =>
        load_assets_go env
          { acc with base_datasets := dictSet acc.base_datasets assetName ds } rest
    else
      load_assets_go env acc rest

/-- `load_assets` (`assets.py` lines 329-389) over the ambient environment. -/
def load_assets (env : String → Option String) (asset_config : Config) :
    Except PyError AssetMap :=
  load_assets_go env emptyAssetMap asset_config

/-- The error a `load_asset_config_files` call can propagate: `open` raising
for a missing path, or `yaml.safe_load` raising for unparsable text.  (The
specification refers to this failure collectively as a `ConfigReadError`.) -/
inductive ConfigReadError where
  | fileNotFound (path : String)
  | yamlParseError (path : String)
deriving DecidableEq

/-- One iteration of `load_asset_config_files` (`assets.py` lines 321-324):
`open(path)` followed by `yaml.safe_load`, with the filesystem and the YAML
parser as parameters. -/
def readConfigFile (fs : String → Option String)
    (parseYaml : String → Option Config) (path : String) :
    Except ConfigReadError Config :=
  match fs path with
  | none => .error (.fileNotFound path)
  | some text =>
    match parseYaml text with
    | none => .error (.yamlParseError path)
    | some cfg => .ok cfg

/-- The path loop of `load_asset_config_files` (`assets.py` lines 319-326)
with the accumulated `asset_config` dict explicit: read each file in order
and `update` the accumulator, aborting on the first read or parse failure. -/
def loadConfigsFrom (fs : String → Option String)
    (parseYaml : String → Option Config) (acc : Config) :
    List String → Except ConfigReadError Config
  | [] => .ok acc
  | path :: rest =>
    match readConfigFile fs parseYaml path with
    | .error e => .error e
    | .ok cfg => loadConfigsFrom fs parseYaml (dictUpdate acc cfg) rest

/-- `load_asset_config_files` (`assets.py` lines 299-326). -/
def load_asset_config_files (fs : String → Option String)
    (parseYaml : String → Option Config) (paths : List String) :
    Except ConfigReadError Config :=
  loadConfigsFrom fs parseYaml [] paths

/-- The mutable object graph of buckets and datasets, by asset identity:
`bucketDatasets` is each `Bucket.datasets` list and `datasetBucket` is each
`BaseDataset.bucket` back-reference. -/
structure Heap where
  bucketDatasets : String → List String
  datasetBucket : String → Option String

/-- `BaseDataset.set_bucket` (`assets.py` lines 100-101): overwrite the
dataset's back-reference. -/
def set_bucket (h : Heap) (d b : String) : Heap :=
  { h with datasetBucket := fun d' => if d' = d then some b else h.datasetBucket d' }

/-- `Bucket.add_dataset` (`assets.py` lines 124-126): append the dataset to
this bucket's list, then set the dataset's parent bucket. -/
def add_dataset (h : Heap) (b d : String) : Heap :=
  set_bucket
    { h with
      bucketDatasets := fun b' =>
        if b' = b then h.bucketDatasets b ++ [d] else h.bucketDatasets b' }
    d b

/-- The heap before any dataset has been added to any bucket. -/
def emptyHeap : Heap := ⟨fun _ => [], fun _ => none⟩

/-- Result of a `Database.delete` call: the SQL text passed to
`cursor.execute` (`none` when the method returns before executing anything)
and the returned success boolean. -/
structure DeleteResult where
  query : Option String
  success : Bool
deriving DecidableEq

/-- The composed statement a `Database.delete` call executes, when its
argument guard passes (`assets.py` lines 239-252): the `DELETE` with either
no filter or the day-threshold filter, plus the `OPTIMIZE TABLE` suffix for
MySQL. -/
def deleteQuery (db : Database) (table_name : String) (delete_all : Bool)
    (days : Option Int) (column_header : Option String) : Option String :=
  let base := "DELETE FROM " ++ table_name
  let filtered : Option String :=
    if delete_all then some (base ++ ";")
    else
      match days, column_header with
      | some d, some ch =>
        some (base ++ " WHERE DATE(" ++ ch ++ ") <= CURDATE() - INTERVAL " ++
          toString d ++ " DAY;")
      | _, _ => none
  match filtered with
  | none => none
  | some q =>
    some (if db.database_type = "mysql" then
      q ++ "\nOPTIMIZE TABLE " ++ table_name ++ ";" else q)

/-- `Database.delete` (`assets.py` lines 219-263).  `execOk` tells whether
`cursor.execute` plus `conn.commit` of a given statement succeed; an
exception there is caught by the source and surfaces only as a `false`
result.  The argument-guard failure logs and returns before any query. -/
def Database.delete (db : Database) (_schema_name table_name : String)
    (delete_all : Bool) (days : Option Int) (column_header : Option String)
    (execOk : String → Bool) : DeleteResult :=
  if delete_all then
    let q := "DELETE FROM " ++ table_name ++ ";"
    let q := if db.database_type = "mysql" then
      q ++ "\nOPTIMIZE TABLE " ++ table_name ++ ";" else q
    ⟨some q, execOk q⟩
  else
    match days, column_header with
    | some d, some ch =>
      let q := "DELETE FROM " ++ table_name ++ " WHERE DATE(" ++ ch ++
        ") <= CURDATE() - INTERVAL " ++ toString d ++ " DAY;"
      let q := if db.database_type = "mysql" then
        q ++ "\nOPTIMIZE TABLE " ++ table_name ++ ";" else q
      ⟨some q, execOk q⟩
    | _, _ => ⟨none, false⟩

/-!
Theorems.
-/

/-- C2: in the `load_assets` loop, after environment resolution the value of a
key named `port` whose string form is purely decimal digits is converted to
the corresponding base-10 integer, and any other `port` value is coerced to
the integer `0`; the coercion is total (no error is raised). -/
theorem resolveParam_port_coercion (env : String → Option String) (v : Value) :
    resolveParam env "port" v =
      (if isAllDigits (pyStr (envResolve env v)) then
        Value.int (pyInt (envResolve env v))
      else Value.int 0) := by
  unfold resolveParam coercePort
  rw [if_pos rfl]
  by_cases h : isAllDigits (pyStr (envResolve env v)) <;> simp [h, noneToEmptyStr]

/-- C1, counterexample: the claim is false as stated, at two concrete inputs.
A `port`-keyed placeholder value whose variable is unset resolves to the
integer `0`, not to the empty string the claim requires; and a `None` value,
whose string form `"None"` does not match the placeholder pattern, does not
pass through unchanged but becomes the empty string. -/
theorem resolveParam_claim_counterexample :
    (envVarFullmatch (pyStr (Value.str "\x7b\x7bX\x7d\x7d")) = some "X" ∧
      resolveParam (fun _ => none) "port" (Value.str "\x7b\x7bX\x7d\x7d") =
        Value.int 0 ∧
      Value.int 0 ≠ Value.str "") ∧
    (envVarFullmatch (pyStr Value.null) = none ∧
      resolveParam (fun _ => none) "k" Value.null = Value.str "" ∧
      Value.str "" ≠ Value.null) := by
  refine ⟨⟨by decide, rfl, fun h => Value.noConfusion h⟩,
    ⟨by decide, rfl, fun h => Value.noConfusion h⟩⟩

/-- C1, amended: for every configuration attribute value under a key other
than the reserved `asset_type` key and other than `port` (whose value
additionally undergoes the integer coercion of C2), the `load_assets` loop
replaces a value whose full string form matches the placeholder pattern with
the named environment variable's value when set and with the empty string
when unset; a non-matching value passes through unchanged unless it is
`None`, which becomes the empty string. -/
theorem resolveParam_env_substitution (env : String → Option String)
    (key : String) (v : Value)
    (_hk1 : key ≠ "asset_type") (hk2 : key ≠ "port") :
    (∀ name, envVarFullmatch (pyStr v) = some name →
      resolveParam env key v = Value.str ((env name).getD "")) ∧
    (envVarFullmatch (pyStr v) = none → v ≠ Value.null →
      resolveParam env key v = v) ∧
    (envVarFullmatch (pyStr v) = none → v = Value.null →
      resolveParam env key v = Value.str "") := by
  refine ⟨fun name hm => ?_, fun hm hv => ?_, fun hm hv => ?_⟩
  · simp only [resolveParam, envResolve, hm]
    cases he : env name <;> simp [he, coercePort, hk2, noneToEmptyStr]
  · simp only [resolveParam, envResolve, hm, coercePort, if_neg hk2]
    cases v <;> simp_all [noneToEmptyStr]
  · subst hv
    simp [resolveParam, envResolve, hm, coercePort, hk2, noneToEmptyStr]

/-- C1, witness: a concrete non-`port` key with a set environment variable. -/
theorem resolveParam_env_substitution_witness :
    resolveParam (fun n => if n = "X" then some "val" else none) "host"
      (Value.str "\x7b\x7bX\x7d\x7d") = Value.str "val" := by
  exact (resolveParam_env_substitution
    (fun n => if n = "X" then some "val" else none) "host"
    (Value.str "\x7b\x7bX\x7d\x7d") (by decide) (by decide)).1 "X" (by decide)

/-- String append distributes over `toList` (definitionally). -/
theorem toList_append (a b : String) : (a ++ b).toList = a.toList ++ b.toList :=
  rfl

/-- Unfolding of the `pyFormatGo` scan at a nonempty input. -/
theorem pyFormatGo_cons (arg : List Char) (c : Char) (rest : List Char)
    (n : Nat) :
    pyFormatGo arg (c :: rest) n =
      (if c = Char.ofNat 125 then
        match rest with
        | c2 :: rest2 =>
          if c2 = Char.ofNat 125 then
            (pyFormatGo arg rest2 n).map (fun t => Char.ofNat 125 :: t)
          else none
        | [] => none
      else if c = Char.ofNat 123 then
        match rest with
        | c2 :: rest2 =>
          if c2 = Char.ofNat 123 then
            (pyFormatGo arg rest2 n).map (fun t => Char.ofNat 123 :: t)
          else if c2 = Char.ofNat 125 then
            if n = 0 then (pyFormatGo arg rest2 1).map (fun t => arg ++ t)
            else none
          else none
        | [] => none
      else (pyFormatGo arg rest n).map (fun t => c :: t)) := by
  rw [pyFormatGo.eq_def]

/-- Scanning a brace-free literal prefix copies it to the output. -/
theorem pyFormatGo_copies (arg : List Char) (lit rest : List Char) (n : Nat)
    (h : ∀ c ∈ lit, c ≠ Char.ofNat 123 ∧ c ≠ Char.ofNat 125) :
    pyFormatGo arg (lit ++ rest) n =
      (pyFormatGo arg rest n).map (fun t => lit ++ t) := by
  induction lit with
  | nil =>
    show pyFormatGo arg rest n = (pyFormatGo arg rest n).map (fun t => [] ++ t)
    cases pyFormatGo arg rest n <;> rfl
  | cons c cs ih =>
    obtain ⟨hc1, hc2⟩ := h c (List.mem_cons_self c cs)
    have hcs := fun x hx => h x (List.mem_cons_of_mem c hx)
    show pyFormatGo arg (c :: (cs ++ rest)) n = _
    rw [pyFormatGo_cons, if_neg hc2, if_neg hc1, ih hcs, Option.map_map]
    cases pyFormatGo arg rest n <;> rfl

/-- `str.format` over a template with an arbitrary brace-free value
interpolated between a brace-free literal prefix and a fixed suffix: the
prefix and the value are copied and the suffix scan decides the rest. -/
theorem pyFormat_interpolated (pre v post outPost : String) (arg : String)
    (hpre : ∀ c ∈ pre.toList, c ≠ Char.ofNat 123 ∧ c ≠ Char.ofNat 125)
    (hv : ∀ c ∈ v.toList, c ≠ Char.ofNat 123 ∧ c ≠ Char.ofNat 125)
    (hpost : pyFormatGo arg.toList post.toList 0 = some outPost.toList) :
    pyFormat (pre ++ v ++ post) arg = some (pre ++ v ++ outPost) := by
  unfold pyFormat
  have h1 : (pre ++ v ++ post).toList =
      pre.toList ++ (v.toList ++ post.toList) := by
    rw [toList_append, toList_append, List.append_assoc]
  rw [h1, pyFormatGo_copies arg.toList pre.toList _ 0 hpre,
    pyFormatGo_copies arg.toList v.toList _ 0 hv, hpost]
  show some (String.mk (pre.toList ++ (v.toList ++ outPost.toList))) = _
  have h2 : pre.toList ++ (v.toList ++ outPost.toList) =
      (pre ++ v ++ outPost).toList := by
    rw [toList_append, toList_append, List.append_assoc]
  rw [h2]
  rfl

/-- C3, counterexample: the claim is false as stated, at concrete inputs.  For
`file_format = "\x7b"` the `.format` call over the concatenated message
raises (a `ValueError` in CPython), so the load aborts with an exception that
is not a `ValidationError`; and for `file_format = "\x7b\x7bX\x7d\x7d"` the
raised `ValidationError`'s message has the brace pairs collapsed to
`\x27\x7bX\x7d\x27`, so it does not name the offending value.  The
`database_type` validator fails the same way. -/
theorem validate_enum_fields_counterexample :
    validate_file_format "\x7b" = .error .formatError ∧
    validate_file_format "\x7b\x7bX\x7d\x7d" = .error (.validationError
      "Invalid file_format \x27\x7bX\x7d\x27 provided, please choose among the list: [csv, parquet, delta, avro, json]") ∧
    validate_file_format "\x7b\x7bX\x7d\x7d" ≠ .error (.validationError
      "Invalid file_format \x27\x7b\x7bX\x7d\x7d\x27 provided, please choose among the list: [csv, parquet, delta, avro, json]") ∧
    validate_database_type "\x7b" = .error .formatError := by
  refine ⟨rfl, rfl, ?_, rfl⟩
  intro h
  rw [show validate_file_format "\x7b\x7bX\x7d\x7d" = .error (.validationError
    "Invalid file_format \x27\x7bX\x7d\x27 provided, please choose among the list: [csv, parquet, delta, avro, json]") from rfl] at h
  injection h with h1
  injection h1 with h2
  exact absurd h2 (by decide)

/-- C3, amended: a `file_format` outside `validFileFormats` (and likewise a
`database_type` outside `validDatabaseTypes`) makes the load raise; when the
offending value contains no brace character the exception is a
`ValidationError` whose message names the offending value and lists the valid
set, while a brace-containing value may instead escape as a formatting
exception from `str.format` or produce a message with its brace pairs
collapsed; values inside the respective set do not raise. -/
theorem validate_enum_fields (ff dt : String) :
    (ff ∈ validFileFormats → validate_file_format ff = .ok ()) ∧
    (ff ∉ validFileFormats →
      (∀ c ∈ ff.toList, c ≠ Char.ofNat 123 ∧ c ≠ Char.ofNat 125) →
      validate_file_format ff = .error (.validationError
        ("Invalid file_format \x27" ++ ff ++
          "\x27 provided, please choose among the list: [csv, parquet, delta, avro, json]"))) ∧
    (ff ∉ validFileFormats → ∃ e, validate_file_format ff = .error e) ∧
    (dt ∈ validDatabaseTypes → validate_database_type dt = .ok ()) ∧
    (dt ∉ validDatabaseTypes →
      (∀ c ∈ dt.toList, c ≠ Char.ofNat 123 ∧ c ≠ Char.ofNat 125) →
      validate_database_type dt = .error (.validationError
        ("Invalid database_type \x27" ++ dt ++
          "\x27 provided, please choose among the list: [postgresql, mysql]"))) := by
  refine ⟨fun h => ?_, fun h hbr => ?_, fun h => ?_, fun h => ?_,
    fun h hbr => ?_⟩
  · simp [validate_file_format, h]
  · have hfmt := pyFormat_interpolated "Invalid file_format \x27" ff
      "\x27 provided, please choose among the list: [\x7b\x7d]"
      "\x27 provided, please choose among the list: [csv, parquet, delta, avro, json]"
      (String.intercalate ", " validFileFormats) (by decide) hbr (by decide)
    unfold validate_file_format
    rw [if_pos h, hfmt]
  · unfold validate_file_format
    rw [if_pos h]
    cases pyFormat ("Invalid file_format \x27" ++ ff ++
        "\x27 provided, please choose among the list: [\x7b\x7d]")
        (String.intercalate ", " validFileFormats) with
    | some msg => exact ⟨.validationError msg, rfl⟩
    | none => exact ⟨.formatError, rfl⟩
  · simp [validate_database_type, h]
  · have hfmt := pyFormat_interpolated "Invalid database_type \x27" dt
      "\x27 provided, please choose among the list: [\x7b\x7d]"
      "\x27 provided, please choose among the list: [postgresql, mysql]"
      (String.intercalate ", " validDatabaseTypes) (by decide) hbr (by decide)
    unfold validate_database_type
    rw [if_pos h, hfmt]

/-- C3, witness: concrete accepted and rejected brace-free values for both
validators, with the rejection messages fully evaluated. -/
theorem validate_enum_fields_witness :
    validate_file_format "csv" = .ok () ∧
    validate_file_format "xml" = .error (.validationError
      "Invalid file_format \x27xml\x27 provided, please choose among the list: [csv, parquet, delta, avro, json]") ∧
    validate_database_type "mysql" = .ok () ∧
    validate_database_type "oracle" = .error (.validationError
      "Invalid database_type \x27oracle\x27 provided, please choose among the list: [postgresql, mysql]") := by
  refine ⟨?_, ?_, ?_, ?_⟩
  · exact (validate_enum_fields "csv" "mysql").1 (by decide)
  · exact ((validate_enum_fields "xml" "oracle").2.1 (by decide)
      (by decide)).trans (by rfl)
  · exact (validate_enum_fields "csv" "mysql").2.2.2.1 (by decide)
  · exact ((validate_enum_fields "xml" "oracle").2.2.2.2 (by decide)
      (by decide)).trans (by rfl)

/-- C8: a freshly constructed `BaseDataset` has `location = "s3"` exactly when
a non-empty `bucket_asset_name` is present and `location = "local"` otherwise,
starts with no owning bucket, and `get_bucket_name` answers `"Unassigned"`. -/
theorem baseDataset_construction (an : String) (fpl : List String)
    (ff : String) (ban : Option String) (hdr : Bool)
    (sch : Option (List (String × String))) :
    (mkBaseDataset an fpl ff ban hdr sch).location =
      (if strTruthy ban then "s3" else "local") ∧
    ((mkBaseDataset an fpl ff ban hdr sch).location = "s3" ↔
      ∃ s, ban = some s ∧ s ≠ "") ∧
    (mkBaseDataset an fpl ff ban hdr sch).bucket = none ∧
    (mkBaseDataset an fpl ff ban hdr sch).get_bucket_name = "Unassigned" := by
  refine ⟨rfl, ?_, rfl, rfl⟩
  cases ban with
  | none =>
    constructor
    · intro h; exact absurd (show ("local" : String) = "s3" from h) (by decide)
    · rintro ⟨s, hs, -⟩; exact Option.noConfusion hs
  | some s =>
    by_cases hs : s = ""
    · subst hs
      constructor
      · intro h; exact absurd (show ("local" : String) = "s3" from h) (by decide)
      · rintro ⟨t, ht, hne⟩
        injection ht with ht'
        exact absurd ht'.symm hne
    · constructor
      · intro _; exact ⟨s, rfl, hs⟩
      · intro _
        have htr : strTruthy (some s) = true := by simp [strTruthy, hs]
        simp [mkBaseDataset, htr]

/-- C8, witness: concrete datasets with and without a bucket asset name. -/
theorem baseDataset_construction_witness :
    (mkBaseDataset "a" ["p"] "csv" (some "bkt") true none).location = "s3" ∧
    (mkBaseDataset "b" [] "csv" none true none).location = "local" ∧
    (mkBaseDataset "b" [] "csv" none true none).get_bucket_name =
      "Unassigned" := by
  refine ⟨?_, ?_, ?_⟩
  · exact (baseDataset_construction "a" ["p"] "csv" (some "bkt") true
      none).2.1.mpr ⟨"bkt", rfl, by decide⟩
  · exact ((baseDataset_construction "b" [] "csv" none true none).1).trans
      (by decide)
  · exact (baseDataset_construction "b" [] "csv" none true none).2.2.2

/-- C5, counterexample: the at-most-one-bucket invariant is false.  Adding the
same dataset to two distinct buckets leaves it in both buckets' dataset
lists, while its back-reference points to the bucket added last. -/
theorem add_dataset_not_exclusive :
    "d" ∈ (add_dataset (add_dataset emptyHeap "b1" "d") "b2" "d").bucketDatasets
      "b1" ∧
    "d" ∈ (add_dataset (add_dataset emptyHeap "b1" "d") "b2" "d").bucketDatasets
      "b2" ∧
    ("b1" : String) ≠ "b2" ∧
    (add_dataset (add_dataset emptyHeap "b1" "d") "b2" "d").datasetBucket "d" =
      some "b2" := by
  decide

/-- C5, amended: `Bucket.add_dataset` appends the dataset to that bucket's
list and sets the dataset's back-reference to that bucket, overwriting any
previous back-reference (last write wins) without detaching the dataset from
any other bucket's list — so a dataset can appear in several buckets' lists,
and the "at most one bucket's list" invariant does not hold. -/
theorem add_dataset_spec (h : Heap) (b d : String) :
    (add_dataset h b d).bucketDatasets b = h.bucketDatasets b ++ [d] ∧
    (add_dataset h b d).datasetBucket d = some b ∧
    (∀ b', b' ≠ b → (add_dataset h b d).bucketDatasets b' =
      h.bucketDatasets b') ∧
    (∀ d', d' ≠ d → (add_dataset h b d).datasetBucket d' =
      h.datasetBucket d') := by
  refine ⟨?_, ?_, fun b' hb => ?_, fun d' hd => ?_⟩
  · simp [add_dataset, set_bucket]
  · simp [add_dataset, set_bucket]
  · simp [add_dataset, set_bucket, hb]
  · simp [add_dataset, set_bucket, hd]

/-- C5, witness: adding to a fresh heap appends to the target bucket's list
and leaves a different bucket's list untouched. -/
theorem add_dataset_spec_witness :
    (add_dataset emptyHeap "b" "d").bucketDatasets "b" = ["d"] ∧
    (add_dataset emptyHeap "b" "d").bucketDatasets "c" = [] := by
  constructor
  · exact ((add_dataset_spec emptyHeap "b" "d").1).trans rfl
  · exact (add_dataset_spec emptyHeap "b" "d").2.2.1 "c" (by decide)

/-- C9: `Database.delete` with `delete_all` false and `days` or
`column_header` absent returns failure without executing any query; in every
other case it executes exactly the composed statement `deleteQuery` yields,
and its success is whatever the execution (whose exceptions the source
catches into a `False` return) reports. -/
theorem Database_delete_spec (db : Database) (sn tn : String) (da : Bool)
    (days : Option Int) (ch : Option String) (execOk : String → Bool) :
    (da = false → (days = none ∨ ch = none) →
      db.delete sn tn da days ch execOk = ⟨none, false⟩) ∧
    ((da = true ∨ (days ≠ none ∧ ch ≠ none)) →
      ∃ q, deleteQuery db tn da days ch = some q) ∧
    (∀ q, deleteQuery db tn da days ch = some q →
      db.delete sn tn da days ch execOk = ⟨some q, execOk q⟩) := by
  refine ⟨?_, ?_, ?_⟩
  · rintro rfl hor
    cases days with
    | none => cases ch <;> rfl
    | some d =>
      cases ch with
      | none => rfl
      | some c => rcases hor with h | h <;> exact Option.noConfusion h
  · intro hg
    cases da with
    | true => exact ⟨_, rfl⟩
    | false =>
      rcases hg with h | ⟨hd, hc⟩
      · exact absurd h (by simp)
      · cases days with
        | none => exact absurd rfl hd
        | some d =>
          cases ch with
          | none => exact absurd rfl hc
          | some c => exact ⟨_, rfl⟩
  · intro q hq
    cases da with
    | true =>
      injection hq with hq'
      subst hq'
      rfl
    | false =>
      cases days with
      | none => exact Option.noConfusion hq
      | some d =>
        cases ch with
        | none => exact Option.noConfusion hq
        | some c =>
          injection hq with hq'
          subst hq'
          rfl

/-- C9, witness: a MySQL database with missing `days` returns failure with no
query, and a `delete_all` call executes the composed statement. -/
theorem Database_delete_spec_witness :
    Database.delete ⟨"db", "mysql", "h", 3306, "u", "p"⟩ "s" "t" false none
      (some "d") (fun _ => true) = ⟨none, false⟩ ∧
    Database.delete ⟨"db", "mysql", "h", 3306, "u", "p"⟩ "s" "t" true none
      none (fun _ => true) =
      ⟨some "DELETE FROM t;\nOPTIMIZE TABLE t;", true⟩ := by
  constructor
  · exact (Database_delete_spec ⟨"db", "mysql", "h", 3306, "u", "p"⟩ "s" "t"
      false none (some "d") (fun _ => true)).1 rfl (Or.inl rfl)
  · exact (Database_delete_spec ⟨"db", "mysql", "h", 3306, "u", "p"⟩ "s" "t"
      true none none (fun _ => true)).2.2
      "DELETE FROM t;\nOPTIMIZE TABLE t;" (by decide)

/-- C6: a configuration entry with no `asset_type` key is routed to the base
dataset schema: `load_assets` validates its built config with
`loadBaseDataset` and, when that load succeeds, stores the resulting dataset
in the `base_datasets` collection under the asset name, touching no other
collection. -/
theorem load_assets_default_base_dataset (env : String → Option String)
    (acc : AssetMap) (assetName : String) (params : Entry) (rest : Config)
    (ds : BaseDataset)
    (h1 : dictGet params "asset_type" = none)
    (h2 : loadBaseDataset (buildConfig env assetName params) = .ok ds) :
    load_assets_go env acc ((assetName, params) :: rest) =
      load_assets_go env
        { acc with base_datasets := dictSet acc.base_datasets assetName ds }
        rest := by
  simp only [load_assets_go, h1, Option.getD_none]
  rw [if_neg (by decide), if_neg (by decide), if_pos (by decide), h2]

/-- C6, witness: a one-entry config without `asset_type` loads into the
`base_datasets` collection, with `buckets` and `databases` left empty. -/
theorem load_assets_default_base_dataset_witness :
    load_assets (fun _ => none)
      [("d1", [("file_path_list", Value.list [Value.str "p.csv"])])] =
      .ok ⟨[], [("d1", mkBaseDataset "d1" ["p.csv"] "csv" none true none)],
        []⟩ := by
  have h := load_assets_default_base_dataset (fun _ => none) emptyAssetMap
    "d1" [("file_path_list", Value.list [Value.str "p.csv"])] []
    (mkBaseDataset "d1" ["p.csv"] "csv" none true none) rfl rfl
  exact h.trans rfl

/-- C10: a configuration entry whose `asset_type` value is present but equals
none of `"database"`, `"bucket"`, `"base_dataset"` matches no branch of the
`if`/`elif` chain of `load_assets`: the entry is silently skipped, no object
is constructed for it, no error is raised, and the load continues with the
remaining entries over an unchanged asset map. -/
theorem load_assets_unknown_discriminator (env : String → Option String)
    (acc : AssetMap) (assetName : String) (params : Entry) (rest : Config)
    (v : Value)
    (h1 : dictGet params "asset_type" = some v)
    (h2 : v.eqStr "database" = false)
    (h3 : v.eqStr "bucket" = false)
    (h4 : v.eqStr "base_dataset" = false) :
    load_assets_go env acc ((assetName, params) :: rest) =
      load_assets_go env acc rest := by
  simp only [load_assets_go, h1, Option.getD_some, h2, h3, h4,
    Bool.false_eq_true, if_false]

/-- C10, witness: a one-entry config with the unrecognized discriminator
`"mystery"` yields the empty asset map without error. -/
theorem load_assets_unknown_discriminator_witness :
    load_assets (fun _ => none)
      [("a1", [("asset_type", Value.str "mystery")])] = .ok emptyAssetMap := by
  have h := load_assets_unknown_discriminator (fun _ => none) emptyAssetMap
    "a1" [("asset_type", Value.str "mystery")] [] (Value.str "mystery")
    rfl rfl rfl rfl
  exact h.trans rfl

/-- C4: whenever some path in the list cannot be opened or its text cannot be
parsed as YAML, `load_asset_config_files` propagates a `ConfigReadError` (the
`Except` is an `error`, so no partial merged mapping reaches the caller). -/
theorem load_asset_config_files_failure (fs : String → Option String)
    (parseYaml : String → Option Config) (paths : List String)
    (h : ∃ p ∈ paths, ∃ e, readConfigFile fs parseYaml p = .error e) :
    ∃ e, load_asset_config_files fs parseYaml paths = .error e := by
  unfold load_asset_config_files
  suffices hgen : ∀ acc : Config,
      (∃ p ∈ paths, ∃ e, readConfigFile fs parseYaml p = .error e) →
      ∃ e, loadConfigsFrom fs parseYaml acc paths = .error e from hgen [] h
  clear h
  induction paths with
  | nil =>
    rintro acc ⟨p, hp, -⟩
    exact absurd hp (List.not_mem_nil p)
  | cons q rest ih =>
    rintro acc ⟨p, hp, e, he⟩
    cases hr : readConfigFile fs parseYaml q with
    | error e' => exact ⟨e', by simp [loadConfigsFrom, hr]⟩
    | ok cfg =>
      rcases List.mem_cons.mp hp with heq | hp'
      · subst heq
        rw [hr] at he
        exact Except.noConfusion he
      · rcases ih (dictUpdate acc cfg) ⟨p, hp', e, he⟩ with ⟨e'', he''⟩
        exact ⟨e'', by simp [loadConfigsFrom, hr, he'']⟩

/-- C4, witness: with an empty filesystem, loading a single path fails. -/
theorem load_asset_config_files_failure_witness :
    ∃ e, load_asset_config_files (fun _ => none) (fun _ => none) ["a"] =
      .error e := by
  exact load_asset_config_files_failure (fun _ => none) (fun _ => none) ["a"]
    ⟨"a", List.mem_cons_self "a" [], ConfigReadError.fileNotFound "a", rfl⟩

/-- Key lookup after a dict assignment of the same key. -/
theorem dictGet_dictSet_self {α : Type} (d : List (String × α)) (k : String)
    (v : α) : dictGet (dictSet d k v) k = some v := by
  induction d with
  | nil => simp [dictSet, dictGet]
  | cons kv rest ih =>
    obtain ⟨k', v'⟩ := kv
    by_cases h : k' = k
    · subst h; simp [dictSet, dictGet]
    · simp [dictSet, dictGet, h, ih]

/-- Key lookup after a dict assignment of a different key. -/
theorem dictGet_dictSet_ne {α : Type} (d : List (String × α)) (k k' : String)
    (v : α) (h : k' ≠ k) : dictGet (dictSet d k' v) k = dictGet d k := by
  induction d with
  | nil => simp [dictSet, dictGet, h]
  | cons kv rest ih =>
    obtain ⟨k'', v''⟩ := kv
    by_cases h2 : k'' = k'
    · subst h2; simp [dictSet, dictGet, h]
    · simp [dictSet, dictGet, h2, ih]

/-- Lookup of a key absent from a dict's key list. -/
theorem dictGet_eq_none_of_not_mem {α : Type} (d : List (String × α))
    (k : String) (h : k ∉ d.map Prod.fst) : dictGet d k = none := by
  induction d with
  | nil => rfl
  | cons kv rest ih =>
    obtain ⟨k', v'⟩ := kv
    simp only [List.map_cons, List.mem_cons] at h
    push_neg at h
    show (if k' = k then some v' else dictGet rest k) = none
    rw [if_neg (fun hh => h.1 hh.symm)]
    exact ih h.2

/-- Lookup through a Python `dict.update`: for a duplicate-free update dict,
the updated value wins and other keys fall back to the original dict. -/
theorem dictGet_dictUpdate {α : Type} (d new : List (String × α)) (k : String)
    (h : (new.map Prod.fst).Nodup) :
    dictGet (dictUpdate d new) k =
      (match dictGet new k with
       | some v => some v
       | none => dictGet d k) := by
  induction new generalizing d with
  | nil => rfl
  | cons kv rest ih =>
    obtain ⟨k', v'⟩ := kv
    simp only [List.map_cons, List.nodup_cons] at h
    have hstep : dictUpdate d ((k', v') :: rest) =
        dictUpdate (dictSet d k' v') rest := rfl
    rw [hstep, ih (dictSet d k' v') h.2]
    by_cases hk : k' = k
    · subst hk
      rw [dictGet_eq_none_of_not_mem rest k' h.1]
      simp [dictGet, dictGet_dictSet_self]
    · cases hrest : dictGet rest k <;> simp [dictGet, hk, hrest,
        dictGet_dictSet_ne d k k' v' hk]

/-- Lookup in the accumulator-threaded path loop of
`load_asset_config_files`: when the loop succeeds, each key maps to the value
from the last file (in list order) that defines it, falling back to the
incoming accumulator. -/
theorem loadConfigsFrom_lookup (fs : String → Option String)
    (parseYaml : String → Option Config) (paths : List String) :
    ∀ acc m : Config,
      (∀ p ∈ paths, match readConfigFile fs parseYaml p with
        | .ok c => (c.map Prod.fst).Nodup
        | .error _ => True) →
      loadConfigsFrom fs parseYaml acc paths = .ok m →
      ∀ x, dictGet m x =
        paths.foldl (fun o p =>
          match (readConfigFile fs parseYaml p).toOption.bind
              (fun c => dictGet c x) with
          | some e => some e
          | none => o) (dictGet acc x) := by
  induction paths with
  | nil =>
    intro acc m _ hload x
    injection hload with hload'
    subst hload'
    rfl
  | cons q rest ih =>
    intro acc m hnd hload x
    cases hr : readConfigFile fs parseYaml q with
    | error e => simp [loadConfigsFrom, hr] at hload
    | ok c =>
      have hc : (c.map Prod.fst).Nodup := by
        have := hnd q (List.mem_cons_self q rest)
        rw [hr] at this
        exact this
      have hload' : loadConfigsFrom fs parseYaml (dictUpdate acc c) rest =
          .ok m := by
        simpa [loadConfigsFrom, hr] using hload
      have hrest := ih (dictUpdate acc c) m
        (fun p hp => hnd p (List.mem_cons_of_mem q hp)) hload' x
      rw [hrest, List.foldl_cons]
      congr 1
      rw [dictGet_dictUpdate acc c x hc, hr]
      simp only [Except.toOption, Option.some_bind]
      cases dictGet c x <;> rfl

/-- C7: when `load_asset_config_files` succeeds, the returned mapping is the
shallow in-order merge of the files' top-level mappings — each asset name maps
to the entire attribute mapping from the last file in list order that defines
it (no field-level merge), and a name defined in only one file is kept. -/
theorem load_asset_config_files_merge (fs : String → Option String)
    (parseYaml : String → Option Config) (paths : List String) (m : Config)
    (x : String)
    (hnd : ∀ p ∈ paths, match readConfigFile fs parseYaml p with
      | .ok c => (c.map Prod.fst).Nodup
      | .error _ => True)
    (hload : load_asset_config_files fs parseYaml paths = .ok m) :
    dictGet m x =
      paths.foldl (fun o p =>
        match (readConfigFile fs parseYaml p).toOption.bind
            (fun c => dictGet c x) with
        | some e => some e
        | none => o) none := by
  exact loadConfigsFrom_lookup fs parseYaml paths [] m hnd hload x

/-- Filesystem of the C7 witness: two config files. -/
def fsW : String → Option String := fun p =>
  if p = "f1" then some "t1" else if p = "f2" then some "t2" else none

/-- YAML parser of the C7 witness: both files define asset `"x"`, with
entirely different attribute mappings. -/
def parseW : String → Option Config := fun t =>
  if t = "t1" then some [("x", [("a", Value.str "1")])]
  else if t = "t2" then some [("x", [("b", Value.str "2")])]
  else none

/-- C7, witness: merging the two files of `fsW`/`parseW`, both defining asset
`"x"`, keeps exactly the second file's whole attribute mapping for `"x"`. -/
theorem load_asset_config_files_merge_witness :
    dictGet ([("x", [("b", Value.str "2")])] : Config) "x" =
      some [("b", Value.str "2")] := by
  have hnd : ∀ p ∈ ["f1", "f2"], match readConfigFile fsW parseW p with
      | .ok c => (c.map Prod.fst).Nodup
      | .error _ => True := by
    intro p hp
    rcases List.mem_cons.mp hp with rfl | hp'
    · show List.Nodup ["x"]
      decide
    · rcases List.mem_cons.mp hp' with rfl | hp''
      · show List.Nodup ["x"]
        decide
      · exact absurd hp'' (List.not_mem_nil p)
  have h := load_asset_config_files_merge fsW parseW ["f1", "f2"]
    [("x", [("b", Value.str "2")])] "x" hnd rfl
  rw [h]
  rfl

end Dataengine
